import Mathlib

/-!
# HLV-RAPS core: shallow embedding and verification

This file embeds, in Lean 4, the parts of the HLV-RAPS control kernel that
the specification's claims are about, and proves (or refutes) each claim
against the embedding.

Embedded components (each definition carries a pointer to its C++ source):
* the Immutable Telemetry Ledger (`ITLManager`: `commit`, `flush_pending`,
  Merkle batching) from `hlv_system_integrator.hpp` and `src/itl/*.hpp`;
* the Deterministic Safety Monitor from
  `include/raps/safety/deterministic_safety_monitor.hpp`;
* the AILEE safety monitor (`check_safety_bounds`, `validate_policy`,
  `run_grace_period`) and the controller steps from
  `hlv_system_integrator.hpp`;
* the redundant A/B supervisor (`notify_failure`) from
  `hlv_system_integrator.hpp`;
* the HLV predictive digital twin (`HlvPdtEngine::predict`) from
  `include/raps/pdt/hlv_pdt_engine.hpp`;
* `execute_rollback_plan` from `src/raps/rollback_execution.hpp` together
  with the SIL `PlatformHAL` actuator/tx-id model from
  `src/platform/platform_hal.cpp`.

Modelling conventions:
* machine floats/doubles are modelled as `ℚ`; where the code tests
  `std::isfinite` or can produce infinities, the IEEE special values are
  modelled by the carrier `F64` (`nan`, `inf`, `ninf`, or a finite `ℚ`);
* `PlatformHAL::sha256` is an external HAL capability (certified SHA-256 in
  flight, a mixer in SIL); it is modelled as an arbitrary function
  `h : List ℕ → List ℕ` over byte streams and every theorem quantifies
  over it;
* byte-level `memcpy` serialization is modelled over `List ℕ` byte lists;
  multi-byte integers use explicit little-endian `% 256` decomposition;
* the RNG draws behind `PlatformHAL` stubs are modelled as explicit
  draw-function parameters advancing an abstract RNG state.
-/

/-! ## Byte streams and hashing -/

/-- A byte, kept as `ℕ`; producers only ever put values `< 256` here. -/
abbrev Byte := ℕ

/-- A hash value (32 bytes in the C++ `Hash256`), kept as a byte list. -/
abbrev Hash256 := List Byte

/-- The HAL hash capability `PlatformHAL::sha256` (external collaborator). -/
abbrev HashFn := List Byte → Hash256

/-- `Hash256::null_hash()`: all zeros (`raps_core_types.hpp`). -/
def nullHash : Hash256 := List.replicate 32 0

/-- Little-endian byte decomposition of a `uint32_t`, as produced by
`std::memcpy` of the 4-byte field on a little-endian target. -/
def le32 (n : ℕ) : List Byte :=
  [n % 256, n / 256 % 256, n / 256 ^ 2 % 256, n / 256 ^ 3 % 256]

/-! ## ITL entry model (`RAPSDefinitions.hpp`: `struct ITLEntry`) -/

/-- `ITLEntry::Type` (`enum class Type : uint8_t`), 17 tags in declaration
order. -/
inductive EntryType where
  | STATE_SNAPSHOT
  | PREDICTION_COMMIT
  | ESE_ALERT
  | POLICY_PREFLIGHT
  | COMMAND_PENDING
  | EXECUTION_FAILURE
  | COMMAND_COMMIT
  | ROLLBACK_METADATA
  | ROLLBACK_COMMIT
  | FALLBACK_TRIGGERED
  | MERKLE_ANCHOR
  | GOVERNANCE_BUDGET_VIOLATION
  | NOMINAL_TRACE
  | SUPERVISOR_EXCEPTION
  | AILEE_SAFETY_STATUS
  | AILEE_GRACE_RESULT
  | AILEE_CONSENSUS_RESULT
deriving DecidableEq, Repr

/-- The single byte the tag occupies in the canonical stream
(`enum class Type : uint8_t`, underlying values 0..16). -/
def EntryType.toByte : EntryType → Byte
  | .STATE_SNAPSHOT => 0
  | .PREDICTION_COMMIT => 1
  | .ESE_ALERT => 2
  | .POLICY_PREFLIGHT => 3
  | .COMMAND_PENDING => 4
  | .EXECUTION_FAILURE => 5
  | .COMMAND_COMMIT => 6
  | .ROLLBACK_METADATA => 7
  | .ROLLBACK_COMMIT => 8
  | .FALLBACK_TRIGGERED => 9
  | .MERKLE_ANCHOR => 10
  | .GOVERNANCE_BUDGET_VIOLATION => 11
  | .NOMINAL_TRACE => 12
  | .SUPERVISOR_EXCEPTION => 13
  | .AILEE_SAFETY_STATUS => 14
  | .AILEE_GRACE_RESULT => 15
  | .AILEE_CONSENSUS_RESULT => 16

/-- Sizes (in bytes) of the per-tag payload structs of `ITLEntry`, under the
natural x86-64 layout of the declared fields (`Hash256` = 32 bytes,
`float`/`uint32_t` = 4 bytes, `PhysicsState` = 3+3+4 floats + `uint32_t`
= 48 bytes, `char[N]` = N bytes; the empty `NominalTracePayload` has size 1;
`AileeSafetyStatusPayload` and `AileeGraceResultPayload` pad a 1-byte field
to the 4-byte alignment of their `float`). -/
def payloadStructSize : EntryType → ℕ
  | .STATE_SNAPSHOT => 80
  | .PREDICTION_COMMIT => 120
  | .ESE_ALERT => 80
  | .POLICY_PREFLIGHT => 68
  | .COMMAND_PENDING => 124
  | .EXECUTION_FAILURE => 124
  | .COMMAND_COMMIT => 124
  | .ROLLBACK_METADATA => 64
  | .ROLLBACK_COMMIT => 124
  | .FALLBACK_TRIGGERED => 32
  | .MERKLE_ANCHOR => 32
  | .GOVERNANCE_BUDGET_VIOLATION => 4
  | .NOMINAL_TRACE => 1
  | .SUPERVISOR_EXCEPTION => 32
  | .AILEE_SAFETY_STATUS => 8
  | .AILEE_GRACE_RESULT => 8
  | .AILEE_CONSENSUS_RESULT => 1

/-- The `switch (entry.type)` table inside `ITLManager::commit`
(`hlv_system_integrator.hpp`): effective payload length from the enum tag
alone.  `COMMAND_PENDING`, `EXECUTION_FAILURE`, `COMMAND_COMMIT` and
`ROLLBACK_COMMIT` all share `sizeof(CommandExecutionPayload)`. -/
def effective_payload_len (t : EntryType) : ℕ := payloadStructSize t

/-- The free-standing per-tag table `itl_effective_payload_len`
(`src/itl/itl_payload_sizing.hpp`), used by other ITL producers. -/
def itl_effective_payload_len (t : EntryType) : ℕ :=
  match t with
  | .STATE_SNAPSHOT => payloadStructSize .STATE_SNAPSHOT
  | .PREDICTION_COMMIT => payloadStructSize .PREDICTION_COMMIT
  | .ESE_ALERT => payloadStructSize .ESE_ALERT
  | .POLICY_PREFLIGHT => payloadStructSize .POLICY_PREFLIGHT
  | .COMMAND_PENDING => payloadStructSize .COMMAND_PENDING
  | .EXECUTION_FAILURE => payloadStructSize .EXECUTION_FAILURE
  | .COMMAND_COMMIT => payloadStructSize .COMMAND_COMMIT
  | .ROLLBACK_COMMIT => payloadStructSize .ROLLBACK_COMMIT
  | .ROLLBACK_METADATA => payloadStructSize .ROLLBACK_METADATA
  | .FALLBACK_TRIGGERED => payloadStructSize .FALLBACK_TRIGGERED
  | .MERKLE_ANCHOR => payloadStructSize .MERKLE_ANCHOR
  | .GOVERNANCE_BUDGET_VIOLATION => payloadStructSize .GOVERNANCE_BUDGET_VIOLATION
  | .NOMINAL_TRACE => payloadStructSize .NOMINAL_TRACE
  | .SUPERVISOR_EXCEPTION => payloadStructSize .SUPERVISOR_EXCEPTION
  | .AILEE_SAFETY_STATUS => payloadStructSize .AILEE_SAFETY_STATUS
  | .AILEE_GRACE_RESULT => payloadStructSize .AILEE_GRACE_RESULT
  | .AILEE_CONSENSUS_RESULT => payloadStructSize .AILEE_CONSENSUS_RESULT

/-- `struct ITLEntry`: fixed header plus the payload union region, the latter
kept as its raw byte image (`payload` is the byte image of `PayloadData`;
producers fill it and `commit` hashes only its first
`effective_payload_len` bytes). -/
structure ITLEntry where
  type : EntryType
  timestamp_ms : ℕ
  entry_id : Hash256
  payload : List Byte
  payload_len : ℕ
deriving DecidableEq, Repr

/-- `sizeof(ITLEntry)` under the modelled layout; `flash_write_cursor_`
advances by this much per flash record. -/
def itlEntrySize : ℕ := 168

/-- Default-constructed `ITLEntry()`: `NOMINAL_TRACE`, zero timestamp, null
id, zeroed payload region. -/
def ITLEntry.default : ITLEntry :=
  { type := .NOMINAL_TRACE
    timestamp_ms := 0
    entry_id := nullHash
    payload := List.replicate 124 0
    payload_len := 0 }

/-- The canonical byte stream hashed for an entry id:
`[type byte][little-endian timestamp][first len bytes of the payload
region]` (the `memcpy` sequence in `ITLManager::commit` and in
`compute_itl_entry_id`). -/
def canonicalBytes (t : EntryType) (ts : ℕ) (payload : List Byte) (len : ℕ) :
    List Byte :=
  t.toByte :: (le32 ts ++ payload.take len)

/-- `compute_itl_entry_id` (`src/itl/itl_entry_hashing.hpp`): recompute an
entry id from an entry and an effective payload length. -/
def compute_itl_entry_id (h : HashFn) (e : ITLEntry) (len : ℕ) : Hash256 :=
  h (canonicalBytes e.type e.timestamp_ms e.payload len)

/-! ## ITL manager state (`ITLManager`, `hlv_system_integrator.hpp`) -/

/-- The ledger-owned state: the bounded FIFO queue (the C++ ring buffer
`queue_`/`queue_head_`/`queue_tail_`/`queue_count_` modelled as the list of
queued entries in FIFO order), the Merkle id buffer, the flash image written
so far (records in write order) and the flash write cursor. -/
structure ITLState where
  queue : List ITLEntry
  merkle : List Hash256
  flash : List ITLEntry
  cursor : ℕ
deriving DecidableEq, Repr

/-- `RAPSConfig::ITL_QUEUE_SIZE`. -/
def ITL_QUEUE_SIZE : ℕ := 128

/-- `RAPSConfig::MERKLE_BATCH_SIZE`. -/
def MERKLE_BATCH_SIZE : ℕ := 32

/-- `ITLManager::init()`. -/
def itlInit : ITLState :=
  { queue := [], merkle := [], flash := [], cursor := 0 }

/-- The fully prepared entry that `ITLManager::commit` enqueues: the
caller's `payload_len` is overwritten with the per-tag effective length and
`entry_id` is the hash of the canonical bytes. -/
def storedEntry (h : HashFn) (t : ITLEntry) : ITLEntry :=
  let len := effective_payload_len t.type
  { t with
    payload_len := len
    entry_id := h (canonicalBytes t.type t.timestamp_ms t.payload len) }

/-- `ITLManager::commit`: non-blocking; returns the null hash and leaves the
state untouched when the queue is at capacity, otherwise enqueues the
prepared entry and returns its id. -/
def ITLManager.commit (h : HashFn) (s : ITLState) (t : ITLEntry) :
    Hash256 × ITLState :=
  if ITL_QUEUE_SIZE ≤ s.queue.length then
    (nullHash, s)
  else
    ((storedEntry h t).entry_id, { s with queue := s.queue ++ [storedEntry h t] })

/-- Commit a batch of entry templates in order. -/
def commitList (h : HashFn) (s : ITLState) (ts : List ITLEntry) : ITLState :=
  ts.foldl (fun st t => (ITLManager.commit h st t).2) s

/-- One level of the Merkle tree (`ITLManager::compute_merkle_root` inner
loop): hash adjacent pairs, duplicating the last node on an odd count;
pairs are hashed as SHA-256 over the concatenated 64 bytes. -/
def merkleLevel (h : HashFn) : List Hash256 → List Hash256
  | [] => []
  | [x] => [h (x ++ x)]
  | x :: y :: rest => h (x ++ y) :: merkleLevel h rest

/-- Iterate `merkleLevel` until one node remains; the fuel argument bounds
the number of levels (the list at least halves per level, so the initial
list length is ample fuel). -/
def merkleIter (h : HashFn) : ℕ → List Hash256 → Hash256
  | _, [] => nullHash
  | _, [x] => x
  | 0, l => l.headD nullHash
  | n + 1, l => merkleIter h n (merkleLevel h l)

/-- `ITLManager::compute_merkle_root`: null hash for an empty batch, the id
itself for a singleton, otherwise the iterated pairwise hash. -/
def compute_merkle_root (h : HashFn) (ids : List Hash256) : Hash256 :=
  merkleIter h ids.length ids

/-- The anchor entry built inside `ITLManager::anchor_merkle_root` (and
`src/itl/itl_merkle_anchor_entry.hpp`): a `MERKLE_ANCHOR` entry whose
payload region starts with the 32-byte root, id over the canonical bytes. -/
def mkMerkleAnchorEntry (h : HashFn) (now : ℕ) (root : Hash256) : ITLEntry :=
  let payload := root ++ List.replicate 92 0
  { type := .MERKLE_ANCHOR
    timestamp_ms := now
    entry_id := h (canonicalBytes .MERKLE_ANCHOR now payload 32)
    payload := payload
    payload_len := 32 }

/-- The ledger state manipulated by the flush loop (everything except the
queue, which the loop consumes). -/
structure MSt where
  merkle : List Hash256
  flash : List ITLEntry
  cursor : ℕ
deriving DecidableEq, Repr

/-- `ITLManager::anchor_merkle_root`: flash-write the anchor entry at the
cursor; on success advance the cursor (on failure only a metric is
emitted and the root is lost). `flashOk c` tells whether the HAL
`flash_write` at cursor `c` succeeds. -/
def anchor_merkle_root (h : HashFn) (flashOk : ℕ → Bool) (now : ℕ)
    (root : Hash256) (m : MSt) : MSt :=
  if flashOk m.cursor then
    { m with
      flash := m.flash ++ [mkMerkleAnchorEntry h now root]
      cursor := m.cursor + itlEntrySize }
  else m

/-- `ITLManager::process_merkle_batch`: no-op on an empty buffer; otherwise
compute the root over the buffered ids, anchor it, and reset the buffer. -/
def process_merkle_batch (h : HashFn) (flashOk : ℕ → Bool) (now : ℕ)
    (m : MSt) : MSt :=
  if m.merkle = [] then m
  else
    let root := compute_merkle_root h m.merkle
    let m1 := anchor_merkle_root h flashOk now root m
    { m1 with merkle := [] }

/-- The Merkle-buffer step of the flush loop: append the flushed entry's id
while the buffer is below `MERKLE_BATCH_SIZE`; when the buffer is already
full, process the batch first and then append the new id. -/
def flushMerkleStep (h : HashFn) (flashOk : ℕ → Bool) (now : ℕ)
    (eid : Hash256) (m : MSt) : MSt :=
  if m.merkle.length < MERKLE_BATCH_SIZE then
    { m with merkle := m.merkle ++ [eid] }
  else
    let m1 := process_merkle_batch h flashOk now m
    { m1 with merkle := m1.merkle ++ [eid] }

/-- The `while (queue_count_ > 0)` loop of `ITLManager::flush_pending`:
write the head entry to flash; on success advance the cursor, run the
Merkle step on its id, enqueue to downlink and pop the head; on flash
failure stop and leave the remaining entries queued. Returns the final
ledger-owned state and the unprocessed remainder of the queue. -/
def flushGo (h : HashFn) (flashOk : ℕ → Bool) (now : ℕ) :
    List ITLEntry → MSt → MSt × List ITLEntry
  | [], m => (m, [])
  | e :: rest, m =>
    if flashOk m.cursor then
      let m1 : MSt :=
        { m with flash := m.flash ++ [e], cursor := m.cursor + itlEntrySize }
      flushGo h flashOk now rest (flushMerkleStep h flashOk now e.entry_id m1)
    else (m, e :: rest)

/-- `ITLManager::flush_pending`. -/
def flush_pending (h : HashFn) (flashOk : ℕ → Bool) (now : ℕ)
    (s : ITLState) : ITLState :=
  let r := flushGo h flashOk now s.queue ⟨s.merkle, s.flash, s.cursor⟩
  { queue := r.2, merkle := r.1.merkle, flash := r.1.flash, cursor := r.1.cursor }

/-! ## IEEE double carrier for code that tests `std::isfinite` -/

/-- A `double` value: a finite rational or one of the IEEE special values.
Rounding is idealized away (finite arithmetic is exact), the special-value
and comparison semantics follow IEEE-754 (`NaN` compares false). -/
inductive F64 where
  | nan
  | inf
  | ninf
  | fin (q : ℚ)
deriving DecidableEq, Repr

/-- `std::isfinite`. -/
def F64.isFinite : F64 → Bool
  | .fin _ => true
  | _ => false

/-- IEEE `<` (any comparison with NaN is false). -/
def F64.lt : F64 → F64 → Bool
  | .nan, _ => false
  | _, .nan => false
  | .ninf, .ninf => false
  | .ninf, _ => true
  | _, .ninf => false
  | .inf, _ => false
  | .fin _, .inf => true
  | .fin a, .fin b => decide (a < b)

/-- IEEE `<=` (any comparison with NaN is false). -/
def F64.le : F64 → F64 → Bool
  | .nan, _ => false
  | _, .nan => false
  | .ninf, _ => true
  | _, .ninf => false
  | _, .inf => true
  | .inf, _ => false
  | .fin a, .fin b => decide (a ≤ b)

/-- IEEE subtraction (finite part exact). -/
def F64.sub : F64 → F64 → F64
  | .nan, _ => .nan
  | _, .nan => .nan
  | .inf, .inf => .nan
  | .inf, _ => .inf
  | .ninf, .ninf => .nan
  | .ninf, _ => .ninf
  | .fin _, .inf => .ninf
  | .fin _, .ninf => .inf
  | .fin a, .fin b => .fin (a - b)

/-- IEEE multiplication (finite part exact). -/
def F64.mul : F64 → F64 → F64
  | .nan, _ => .nan
  | _, .nan => .nan
  | .inf, .inf => .inf
  | .inf, .ninf => .ninf
  | .ninf, .inf => .ninf
  | .ninf, .ninf => .inf
  | .inf, .fin b => if b = 0 then .nan else if 0 < b then .inf else .ninf
  | .fin a, .inf => if a = 0 then .nan else if 0 < a then .inf else .ninf
  | .ninf, .fin b => if b = 0 then .nan else if 0 < b then .ninf else .inf
  | .fin a, .ninf => if a = 0 then .nan else if 0 < a then .ninf else .inf
  | .fin a, .fin b => .fin (a * b)

/-! ## Deterministic Safety Monitor
(`include/raps/safety/deterministic_safety_monitor.hpp`) -/

/-- `DSM_Config::MAX_CURVATURE_THRESHOLD_RMAX = 1.0e-12`. -/
def DSM_RMAX : ℚ := 1 / 10 ^ 12

/-- The local `R_FACTOR = 1.0e-10` of `estimateCurvatureScalar`. -/
def DSM_R_FACTOR : ℚ := 1 / 10 ^ 10

/-- `DSM_Config::MIN_ACCEPTABLE_A_T = 0.80`. -/
def DSM_MIN_A_T : ℚ := 4 / 5

/-- `DSM_Config::MAX_TCC_COUPLING_J = 1.0e+04`. -/
def DSM_MAX_J : ℚ := 10 ^ 4

/-- `DSM_Config::MIN_RESONANCE_AMPLITUDE_CUTOFF = 0.10`. -/
def DSM_AMP_CUTOFF : ℚ := 1 / 10

/-- The DSM sensor tuple (`struct DsmSensorInputs`). -/
structure DsmSensorInputs where
  measured_proper_time_dilation : F64
  measured_oscillatory_prefactor_A_t : F64
  measured_tcc_coupling_J : F64
  current_resonance_amplitude : F64
  main_control_system_healthy : Bool
deriving DecidableEq, Repr

/-- `DeterministicSafetyMonitor::SafingAction`. -/
inductive SafingAction where
  | ACTION_NONE
  | ACTION_ROLLBACK
  | ACTION_FULL_SHUTDOWN
deriving DecidableEq, Repr

/-- `hasInvalidInputs`: any of the four scalars non-finite. -/
def hasInvalidInputs (i : DsmSensorInputs) : Bool :=
  !i.measured_proper_time_dilation.isFinite ||
  !i.measured_oscillatory_prefactor_A_t.isFinite ||
  !i.measured_tcc_coupling_J.isFinite ||
  !i.current_resonance_amplitude.isFinite

/-- `estimateCurvatureScalar`: `R_FACTOR * (1 - dilation)^2`, returning
`+∞` when `1 - dilation < 0`. -/
def estimateCurvatureScalar (dilation : F64) : F64 :=
  let time_stretch := F64.sub (.fin 1) dilation
  if F64.lt time_stretch (.fin 0) then .inf
  else F64.mul (.fin DSM_R_FACTOR) (F64.mul time_stretch time_stretch)

/-- `checkCurvatureViolation`: `R_estimated >= RMAX`. -/
def checkCurvatureViolation (r : F64) : Bool :=
  F64.le (.fin DSM_RMAX) r

/-- `checkResonanceStability`: true (= failure predicted) when
`A(t) < MIN_ACCEPTABLE_A_T` or `J > MAX_TCC_COUPLING_J`. -/
def checkResonanceStability (A_t J_coupling : F64) : Bool :=
  F64.lt A_t (.fin DSM_MIN_A_T) || F64.lt (.fin DSM_MAX_J) J_coupling

/-- `DeterministicSafetyMonitor::evaluateSafety`, as a function of the
`safing_sequence_active_` latch and the sensor tuple, returning the action
and the new latch value. -/
def evaluateSafety (safing : Bool) (i : DsmSensorInputs) :
    SafingAction × Bool :=
  if hasInvalidInputs i then (.ACTION_FULL_SHUTDOWN, true)
  else
    let R_estimated := estimateCurvatureScalar i.measured_proper_time_dilation
    if checkCurvatureViolation R_estimated then (.ACTION_FULL_SHUTDOWN, true)
    else if checkResonanceStability i.measured_oscillatory_prefactor_A_t
        i.measured_tcc_coupling_J then (.ACTION_ROLLBACK, true)
    else if !i.main_control_system_healthy &&
        F64.lt (.fin DSM_AMP_CUTOFF) i.current_resonance_amplitude then
      (.ACTION_ROLLBACK, true)
    else if safing && F64.lt R_estimated (.fin (DSM_RMAX * (1 / 2))) then
      (.ACTION_NONE, false)
    else (.ACTION_NONE, safing)

/-! ## Physics state and the AILEE safety monitor
(`hlv_system_integrator.hpp`: `SafetyMonitor`) -/

/-- `struct PhysicsState` (fields per the spec data model; the struct
declaration itself sits in a fragment outside `src/`): position, velocity,
attitude quaternion, mass, timestamp.  Floats as `ℚ`. -/
structure PhysicsStateQ where
  position_m : ℚ × ℚ × ℚ
  velocity_m_s : ℚ × ℚ × ℚ
  attitude_q : ℚ × ℚ × ℚ × ℚ
  mass_kg : ℚ
  timestamp_ms : ℕ
deriving DecidableEq, Repr

/-- `PropulsionPhysicsEngine::MIN_MASS_KG = 100.0f`. -/
def MIN_MASS_KG : ℚ := 100

/-- Squared Euclidean norm of the position (the C++ computes
`radius = sqrt(x*x + y*y + z*z)`; the model compares squares, which is
equivalent for the nonnegative thresholds involved). -/
def radiusSq (s : PhysicsStateQ) : ℚ :=
  s.position_m.1 * s.position_m.1 + s.position_m.2.1 * s.position_m.2.1 +
    s.position_m.2.2 * s.position_m.2.2

/-- Squared Euclidean norm of the velocity. -/
def velMagSq (s : PhysicsStateQ) : ℚ :=
  s.velocity_m_s.1 * s.velocity_m_s.1 +
    s.velocity_m_s.2.1 * s.velocity_m_s.2.1 +
    s.velocity_m_s.2.2 * s.velocity_m_s.2.2

/-- `SafetyMonitor::check_safety_bounds` (parameterized by
`RAPSConfig::R_EARTH_M`, whose numeric definition is not in the sources):
1. mass below `MIN_MASS_KG` fails;
2. radius below `0.95 * R_EARTH_M` fails (compared on squares: the C++
   compares `sqrt(radiusSq) < 0.95*R`, equivalent for `R ≥ 0`);
3. the C++ "velocity limit" compares the (nonnegative) velocity magnitude
   against `0.0f` with `<` — modelled on squares, it is the condition
   `velMagSq < 0`, false for every state exactly as `sqrt(...) < 0` is. -/
def check_safety_bounds (R_EARTH_M : ℚ) (s : PhysicsStateQ) : Bool :=
  if s.mass_kg < MIN_MASS_KG then false
  else if radiusSq s < (95 / 100 * R_EARTH_M) ^ 2 then false
  else if velMagSq s < 0 ∧ 100000 < s.mass_kg then false
  else true

/-- `struct Policy` (id ≤ 31 chars plus terminator, thrust, gimbals,
cost). -/
structure PolicyQ where
  id : String
  thrust_magnitude_kN : ℚ
  gimbal_theta_rad : ℚ
  gimbal_phi_rad : ℚ
  cost : ℚ
deriving DecidableEq, Repr

/-- The confidence field of the `AileeDataPayload` returned by
`SafetyMonitor::validate_policy`: the PDT model confidence of the
simulated policy, forced to `0` when the predicted end state fails
`check_safety_bounds`.  The physics prediction and the PDT confidence
computation are collaborator outputs here: `end_state` is
`physics_engine_.predict_state(current_state, input)` and `model_conf`
is `pdt_engine_.predict(input).confidence`. -/
def validate_policy_confidence (R_EARTH_M : ℚ) (end_state : PhysicsStateQ)
    (model_conf : ℚ) : ℚ :=
  if check_safety_bounds R_EARTH_M end_state then model_conf else 0

/-- `enum class AileeStatus`. -/
inductive AileeStatus where
  | UNDEFINED
  | ACCEPTED
  | BORDER_LINE
  | OUTRIGHT_REJECTED
  | GRACE_PASS
  | GRACE_FAIL
  | CONSENSUS_PASS
  | CONSENSUS_FAIL
deriving DecidableEq, Repr

/-- `RAPSConfig::AILEE_CONFIDENCE_ACCEPTED = 0.90f`. -/
def AILEE_CONFIDENCE_ACCEPTED : ℚ := 9 / 10

/-- `RAPSConfig::AILEE_CONFIDENCE_BORDERLINE = 0.70f`. -/
def AILEE_CONFIDENCE_BORDERLINE : ℚ := 7 / 10

/-- `RAPSConfig::AILEE_GRACE_THRESHOLD = 0.72f`. -/
def AILEE_GRACE_THRESHOLD : ℚ := 72 / 100

/-- `SafetyMonitor::run_grace_period`: passes exactly when the payload's
raw confidence reaches `AILEE_GRACE_THRESHOLD` (the "lighter secondary
evaluator" of the spec re-uses the initial confidence). -/
def run_grace_period (initial_raw_confidence : ℚ) : AileeStatus :=
  if AILEE_GRACE_THRESHOLD ≤ initial_raw_confidence then .GRACE_PASS
  else .GRACE_FAIL

/-- The `final_status` computation of
`RAPSController::step_validate_and_execute`: accept at or above 0.90,
grace re-evaluation between 0.70 and 0.90, outright rejection below. -/
def aileeFinalStatus (c : ℚ) : AileeStatus :=
  if AILEE_CONFIDENCE_ACCEPTED ≤ c then .ACCEPTED
  else if AILEE_CONFIDENCE_BORDERLINE ≤ c then run_grace_period c
  else .OUTRIGHT_REJECTED

/-- The decision-tree predicate of `step_validate_and_execute`: the policy
is handed to `step_execute_command` exactly for `ACCEPTED`, `GRACE_PASS`
and `CONSENSUS_PASS`. -/
def aileeExecutes (st : AileeStatus) : Bool :=
  st = .ACCEPTED || st = .GRACE_PASS || st = .CONSENSUS_PASS

/-! ## Rollback store and the controller execution step
(`hlv_system_integrator.hpp`: `SafetyMonitor` rollback management,
`RAPSController`) -/

/-- `struct RollbackPlan`. -/
structure RollbackPlanQ where
  policy_id : String
  thrust_magnitude_kN : ℚ
  gimbal_theta_rad : ℚ
  gimbal_phi_rad : ℚ
  rollback_hash : Hash256
  valid : Bool
deriving DecidableEq, Repr

/-- `RAPSConfig::MAX_ROLLBACK_STORE`. -/
def MAX_ROLLBACK_STORE : ℕ := 16

/-- The `rollback_store_` array (16 slots) with its `rollback_count_`
cursor. -/
structure RollbackStore where
  slots : List RollbackPlanQ
  count : ℕ
deriving DecidableEq, Repr

/-- A model byte encoding of the `float[3]` command tuple hashed by
`commit_rollback_plan` (an injective stand-in for the IEEE bit pattern:
sign, numerator magnitude and denominator of each component). -/
def qBytes (q : ℚ) : List Byte :=
  [if q < 0 then 1 else 0, q.num.natAbs, q.den]

/-- `SafetyMonitor::commit_rollback_plan`: on a full store restart the
cursor at 0 (oldest-first overwrite), build the plan from the policy id
(`strncpy` into a 32-byte field keeps at most 31 characters) and the safe
fallback's command tuple, hash the tuple, store and advance. -/
def commit_rollback_plan (h : HashFn) (policy safe_fallback : PolicyQ)
    (st : RollbackStore) : RollbackStore :=
  let c := if MAX_ROLLBACK_STORE ≤ st.count then 0 else st.count
  let plan : RollbackPlanQ :=
    { policy_id := policy.id.take 31
      thrust_magnitude_kN := safe_fallback.thrust_magnitude_kN
      gimbal_theta_rad := safe_fallback.gimbal_theta_rad
      gimbal_phi_rad := safe_fallback.gimbal_phi_rad
      rollback_hash :=
        h (qBytes safe_fallback.thrust_magnitude_kN ++
           qBytes safe_fallback.gimbal_theta_rad ++
           qBytes safe_fallback.gimbal_phi_rad)
      valid := true }
  { slots := st.slots.set c plan, count := c + 1 }

/-- `SafetyMonitor::get_last_safe_rollback`. -/
def get_last_safe_rollback (st : RollbackStore) : Option RollbackPlanQ :=
  if 0 < st.count then st.slots.get? (st.count - 1) else none

/-- Byte image of a string copied by `strncpy(dst, src, n - 1)` into a
zero-initialized `char[n]` field: at most `n - 1` characters, zero-padded
to `n` bytes. -/
def strFieldBytes (s : String) (n : ℕ) : List Byte :=
  let bs := (s.toList.map Char.toNat).take (n - 1)
  bs ++ List.replicate (n - bs.length) 0

/-- Byte image of the `CommandExecutionPayload` as the controller fills it:
zeroed `policy_id` hash, the tx id in `tx_id[24]`, zeroed command-set hash,
reference id and elapsed field. -/
def cmdExecPayloadBytes (tx : String) : List Byte :=
  List.replicate 32 0 ++ strFieldBytes tx 24 ++ List.replicate 68 0

/-- Byte image of the `FallbackTriggeredPayload` (`char reason[32]`). -/
def fallbackPayloadBytes (reason : String) : List Byte :=
  strFieldBytes reason 32 ++ List.replicate 92 0

/-- The per-channel controller state touched by the execution and fallback
steps: its ledger, its rollback store, the thrusting flag and the last
command timestamp. -/
structure CtrlState where
  itl : ITLState
  rollback : RollbackStore
  is_thrusting : Bool
  last_command_timestamp : ℕ
deriving DecidableEq, Repr

/-- Outcomes of the HAL calls a fallback attempt makes: the tx id that
`generate_tx_id` returns for the rollback command and whether
`actuator_execute` succeeds for it. -/
structure FallbackHal where
  tx : String
  actuator_ok : Bool
deriving DecidableEq, Repr

/-- `RAPSController::trigger_fallback`: commit `FALLBACK_TRIGGERED` with
the reason, fetch the last safe rollback plan, execute it through the
actuator; on success clear `is_thrusting_` and commit `ROLLBACK_COMMIT`;
on failure (or with no plan) only notify the supervisor (a metric plus a
`notify_failure` call, modelled at the supervisor level). -/
def trigger_fallback (h : HashFn) (fb : FallbackHal) (now : ℕ)
    (reason : String) (s : CtrlState) : CtrlState :=
  let fbEntry : ITLEntry :=
    { type := .FALLBACK_TRIGGERED, timestamp_ms := now, entry_id := nullHash
      payload := fallbackPayloadBytes reason, payload_len := 0 }
  let s1 : CtrlState := { s with itl := (ITLManager.commit h s.itl fbEntry).2 }
  match get_last_safe_rollback s1.rollback with
  | some _ =>
    if fb.actuator_ok then
      let commitEntry : ITLEntry :=
        { type := .ROLLBACK_COMMIT, timestamp_ms := now, entry_id := nullHash
          payload := cmdExecPayloadBytes fb.tx, payload_len := 0 }
      { s1 with
        is_thrusting := false
        itl := (ITLManager.commit h s1.itl commitEntry).2 }
    else s1
  | none => s1

/-- `RAPSController::step_execute_command`: commit `COMMAND_PENDING`,
execute via the actuator (outcome `act_ok`), then on success set the
thrusting flag, commit `COMMAND_COMMIT` and store an engine-off safe-abort
rollback plan for the executed policy (the C++ leaves the abort policy's
gimbal fields default; no ledger entry of type `ROLLBACK_METADATA` is
committed); on failure commit `EXECUTION_FAILURE` and fall back. -/
def step_execute_command (h : HashFn) (tx : String) (act_ok : Bool)
    (fb : FallbackHal) (now : ℕ) (policy : PolicyQ) (s : CtrlState) :
    CtrlState :=
  let pendingEntry : ITLEntry :=
    { type := .COMMAND_PENDING, timestamp_ms := now, entry_id := nullHash
      payload := cmdExecPayloadBytes tx, payload_len := 0 }
  let s1 : CtrlState := { s with itl := (ITLManager.commit h s.itl pendingEntry).2 }
  if act_ok then
    let commitEntry : ITLEntry :=
      { type := .COMMAND_COMMIT, timestamp_ms := now, entry_id := nullHash
        payload := cmdExecPayloadBytes tx, payload_len := 0 }
    let s2 : CtrlState :=
      { s1 with
        is_thrusting := decide (0 < policy.thrust_magnitude_kN)
        last_command_timestamp := now
        itl := (ITLManager.commit h s1.itl commitEntry).2 }
    let safe_abort : PolicyQ :=
      { id := ("ABORT_" ++ policy.id).take 31
        thrust_magnitude_kN := 0
        gimbal_theta_rad := 0
        gimbal_phi_rad := 0
        cost := 0 }
    { s2 with rollback := commit_rollback_plan h policy safe_abort s2.rollback }
  else
    let failEntry : ITLEntry :=
      { type := .EXECUTION_FAILURE, timestamp_ms := now, entry_id := nullHash
        payload := cmdExecPayloadBytes tx, payload_len := 0 }
    let s2 : CtrlState := { s1 with itl := (ITLManager.commit h s1.itl failEntry).2 }
    trigger_fallback h fb now "Actuator Execution Timeout/Failure" s2

/-! ## Redundant supervisor (`hlv_system_integrator.hpp`:
`RedundantSupervisor`) -/

/-- `RedundantSupervisor::FailureMode` (the C++ spells the fourth mode
`MISMATED_PREDICTION`). -/
inductive FailureMode where
  | CRITICAL_ROLLBACK_FAIL
  | CRITICAL_NO_ROLLBACK
  | PRIMARY_CHANNEL_LOCKUP
  | MISMATED_PREDICTION
deriving DecidableEq, Repr

/-- A controller channel as the supervisor observes and drives it: its
current state snapshot and the log of reasons its fallback path was
invoked with (an observation model of `RAPSController::trigger_fallback`
calls made by the supervisor). -/
structure SupChannel where
  current_state : PhysicsStateQ
  fallback_log : List String
deriving DecidableEq, Repr

/-- `RedundantSupervisor` state: the active-channel flag, both channels and
the emitted metric names in order. -/
structure SupervisorState where
  is_channel_a_active : Bool
  ctrl_a : SupChannel
  ctrl_b : SupChannel
  metrics : List String
deriving DecidableEq, Repr

/-- `RAPSController::update_state_snapshot` as seen from the supervisor. -/
def updateSnapshot (st : PhysicsStateQ) (ch : SupChannel) : SupChannel :=
  { ch with current_state := st }

/-- `RedundantSupervisor::synchronize_inactive_controller`: write the given
state into whichever channel is currently inactive. -/
def synchronize_inactive_controller (st : PhysicsStateQ)
    (s : SupervisorState) : SupervisorState :=
  let s1 :=
    if s.is_channel_a_active then { s with ctrl_b := updateSnapshot st s.ctrl_b }
    else { s with ctrl_a := updateSnapshot st s.ctrl_a }
  { s1 with metrics := s1.metrics ++ ["supervisor.sync_complete"] }

/-- `RedundantSupervisor::switch_to_channel_b`: flip the flag, then call
`synchronize_inactive_controller` with the current state of the channel
the (already flipped) flag selects — i.e. with channel B's own state,
written into the now-inactive channel A. -/
def switch_to_channel_b (s : SupervisorState) : SupervisorState :=
  let s1 : SupervisorState := { s with is_channel_a_active := false }
  let st :=
    if s1.is_channel_a_active then s1.ctrl_a.current_state
    else s1.ctrl_b.current_state
  let s2 := synchronize_inactive_controller st s1
  { s2 with
    metrics := s2.metrics ++ ["supervisor.active_channel", "supervisor.switch_count"] }

/-- `RedundantSupervisor::log_supervisor_exception` (the supervisor has no
ITL of its own; only the metric is observable). -/
def log_supervisor_exception (s : SupervisorState) : SupervisorState :=
  { s with metrics := s.metrics ++ ["supervisor.exception"] }

/-- Whether a failure mode is one of the three critical ones that the
failover branch of `notify_failure` handles. -/
def isCriticalMode (mode : FailureMode) : Bool :=
  mode = .CRITICAL_ROLLBACK_FAIL || mode = .CRITICAL_NO_ROLLBACK ||
    mode = .PRIMARY_CHANNEL_LOCKUP

/-- `RedundantSupervisor::notify_failure`: log the exception; on a critical
mode, if channel A is active switch to B and invoke B's fallback with
reason "Failover Switch", otherwise (B already active) emit the
fatal-system-halt metric and change nothing else. -/
def notify_failure (mode : FailureMode) (s : SupervisorState) :
    SupervisorState :=
  let s0 := log_supervisor_exception s
  if isCriticalMode mode then
    if s0.is_channel_a_active then
      let s1 : SupervisorState :=
        { s0 with metrics := s0.metrics ++ ["supervisor.failover"] }
      let s2 := switch_to_channel_b s1
      { s2 with
        ctrl_b := { s2.ctrl_b with
          fallback_log := s2.ctrl_b.fallback_log ++ ["Failover Switch"] } }
    else { s0 with metrics := s0.metrics ++ ["supervisor.fatal_system_halt"] }
  else s0

/-! ## HLV predictive digital twin (`include/raps/pdt/hlv_pdt_engine.hpp`) -/

/-- `MAX_WARP_FIELD_STRENGTH` (`hlv_constants`). -/
def MAX_WARP_FIELD_STRENGTH : ℚ := 10

/-- The fields of `SpacetimeModulationState` that `HlvPdtEngine::predict`
reads. -/
structure SpacetimeStateQ where
  warp_field_strength : ℚ
  spacetime_curvature_magnitude : ℚ
  spacetime_stability_index : ℚ
  timestamp_ms : ℕ
deriving DecidableEq, Repr

/-- `PredictionResult::Status`. -/
inductive PredStatus where
  | NOMINAL
  | PREDICTED_ESE
  | INVALID
deriving DecidableEq, Repr

/-- The observable outputs of `HlvPdtEngine::predict`. -/
structure HlvPrediction where
  status : PredStatus
  confidence : ℚ
  uncertainty : ℚ
  timestamp_ms : ℕ
deriving DecidableEq, Repr

/-- `HlvPdtEngine::predict`.  The Monte Carlo noise draws
(`uniform_real_distribution(-0.05, 0.05)` on the engine RNG) are supplied as
the stream `noise`; run `i` consumes draws `3*i` (warp), `3*i+1`
(curvature) and `3*i+2` (stability).  `std::sqrt` on the nonnegative
variance is modelled by `Rat.sqrt` (only its nonnegativity and its value at
`0` are relied upon). -/
def hlvPredict (st : SpacetimeStateQ) (monte_carlo_runs : ℕ)
    (horizon_ms : ℕ) (noise : ℕ → ℚ) : HlvPrediction :=
  let runsQ : ℚ := monte_carlo_runs
  let final_warp :=
    (List.range monte_carlo_runs).map
      (fun i => st.warp_field_strength + noise (3 * i))
  let final_stability :=
    (List.range monte_carlo_runs).map
      (fun i => st.spacetime_stability_index + noise (3 * i + 2))
  let mean_warp := final_warp.sum / runsQ
  let mean_stab := final_stability.sum / runsQ
  let variance := (final_warp.map (fun w => (w - mean_warp) * (w - mean_warp))).sum
  let stdev := Rat.sqrt (variance / runsQ)
  -- `std::min(1.0f, x)` is `x < 1 ? x : 1`, `std::max(0.0f, y)` is
  -- `0 < y ? y : 0`; spelt as conditionals so they compute.
  let uncertainty :=
    if stdev / MAX_WARP_FIELD_STRENGTH * 5 < 1 then
      stdev / MAX_WARP_FIELD_STRENGTH * 5
    else 1
  let base_confidence := (1 - uncertainty) * mean_stab
  let ese_count :=
    (final_warp.filter (fun w => MAX_WARP_FIELD_STRENGTH * (95 / 100) ≤ w)).length
  let ese_penalty := (ese_count : ℚ) / runsQ * (1 / 2)
  let final_confidence :=
    if 0 < base_confidence - ese_penalty then base_confidence - ese_penalty
    else 0
  { status :=
      if runsQ * (1 / 5) < (ese_count : ℚ) then .PREDICTED_ESE else .NOMINAL
    confidence := final_confidence
    uncertainty := uncertainty
    timestamp_ms := st.timestamp_ms + horizon_ms }

/-! ## Rollback execution (`src/raps/rollback_execution.hpp`) and the
SIL `PlatformHAL` actuator model (`src/platform/platform_hal.cpp`) -/

/-- `RAPSConfig::WATCHDOG_MS`. -/
def WATCHDOG_MS : ℕ := 120

/-- The process-global HAL state behind the SIL stubs: the RNG position
(`rng_`) and the applied-tx-id idempotency set (`applied_tx_ids()`). -/
structure HalState where
  rng : ℕ
  applied : List String
deriving DecidableEq, Repr

/-- An abstract RNG draw: from an RNG position produce a value and the next
position (models one `std::uniform_*_distribution` draw on `rng_`). -/
abbrev RngDraw := ℕ → ℕ × ℕ

/-- The hex alphabet of `generate_tx_id`. -/
def hexChar (n : ℕ) : Char := "0123456789abcdef".toList.getD n 'x'

/-- `PlatformHAL::generate_tx_id`: 24 hex characters, one RNG draw each
(each draw's value is reduced to a nibble). -/
def generate_tx_id (draw : RngDraw) (r : ℕ) : String × ℕ :=
  let step : String × ℕ → String × ℕ := fun p =>
    let (v, r1) := draw p.2
    (p.1.push (hexChar (v % 16)), r1)
  step^[24] ("", r)

/-- `PlatformHAL::actuator_execute` (SIL implementation): reject an empty
tx id; force one RNG draw (`rng_ready`); an already-applied tx id is an
immediate no-op success; otherwise draw a latency (`latencyMs` maps the
draw's value to the simulated latency in ms), time out if it exceeds the
timeout, and on success record the tx id as applied. -/
def actuator_execute (draw : RngDraw) (latencyMs : ℕ → ℕ) (tx : String)
    (timeout_ms : ℕ) (s : HalState) : Bool × HalState :=
  if tx = "" then (false, s)
  else
    let r1 := (draw s.rng).2
    if tx ∈ s.applied then (true, { s with rng := r1 })
    else
      let v := (draw r1).1
      let r2 := (draw r1).2
      if timeout_ms < latencyMs v then (false, { s with rng := r2 })
      else (true, { rng := r2, applied := tx :: s.applied })

/-- The rollback plan fields as `execute_rollback_plan` validates them
(thrust and gimbal angles are raw floats there, checked with `< 0` and
`std::isfinite`, so they carry the `F64` special values). -/
structure RollbackPlanF where
  policy_id : String
  thrust_magnitude_kN : F64
  gimbal_theta_rad : F64
  gimbal_phi_rad : F64
  valid : Bool
deriving DecidableEq, Repr

/-- `execute_rollback_plan`: validate the plan (validity flag, nonnegative
thrust, finite gimbal angles), generate a tx id, reject an empty one, and
execute through the actuator with a `WATCHDOG_MS / 4` timeout.  Returns
(success, out_tx_id, HAL state). -/
def execute_rollback_plan (draw : RngDraw) (latencyMs : ℕ → ℕ)
    (rollback : RollbackPlanF) (s : HalState) : Bool × String × HalState :=
  if rollback.valid = false then (false, "", s)
  else if F64.lt rollback.thrust_magnitude_kN (.fin 0) then (false, "", s)
  else if !rollback.gimbal_theta_rad.isFinite then (false, "", s)
  else if !rollback.gimbal_phi_rad.isFinite then (false, "", s)
  else
    let tx := (generate_tx_id draw s.rng).1
    let r1 := (generate_tx_id draw s.rng).2
    if tx = "" then (false, tx, { s with rng := r1 })
    else
      let res :=
        actuator_execute draw latencyMs tx (WATCHDOG_MS / 4)
          { s with rng := r1 }
      (res.1, tx, res.2)

/-! ## Concrete fixtures used by witnesses and counterexamples -/

/-- `PropulsionPhysicsEngine::MAX_VELOCITY_M_S = 20000.0f`: the repository's
own per-axis velocity bound (used by the modular
`is_state_physically_plausible`, not by `check_safety_bounds`). -/
def MAX_VELOCITY_M_S : ℚ := 20000

/-- A concrete hash function for fixtures (the theorems quantify over the
hash; fixtures instantiate it with the identity on byte streams). -/
def hId : HashFn := fun l => l

/-- A `NOMINAL_TRACE` entry template with a given timestamp. -/
def mkTraceEntry (i : ℕ) : ITLEntry :=
  { type := .NOMINAL_TRACE, timestamp_ms := i, entry_id := nullHash
    payload := List.replicate 124 0, payload_len := 0 }

/-- Exactly `MERKLE_BATCH_SIZE` = 32 entry templates. -/
def trace32 : List ITLEntry := (List.range 32).map mkTraceEntry

/-- 33 entry templates. -/
def trace33 : List ITLEntry := (List.range 33).map mkTraceEntry

/-- A physics state on the reference sphere with zero velocity (the demo's
launch state). -/
def padStateQ : PhysicsStateQ :=
  { position_m := (6371000, 0, 0), velocity_m_s := (0, 0, 0)
    attitude_q := (1, 0, 0, 0), mass_kg := 250000, timestamp_ms := 0 }

/-- A predicted end state that satisfies the mass and radius bounds but has
an x-velocity of 30000 m/s, in excess of every per-axis velocity bound in
the repository (`MAX_VELOCITY_M_S` = 20000). -/
def fastEndState : PhysicsStateQ :=
  { position_m := (6371000, 0, 0), velocity_m_s := (30000, 0, 0)
    attitude_q := (1, 0, 0, 0), mass_kg := 250000, timestamp_ms := 0 }

/-- A predicted end state whose radius is exactly `0.95 * R_EARTH_M` for
`R_EARTH_M = 6371000` (the envelope boundary). -/
def boundaryEndState : PhysicsStateQ :=
  { position_m := (6052450, 0, 0), velocity_m_s := (0, 0, 0)
    attitude_q := (1, 0, 0, 0), mass_kg := 250000, timestamp_ms := 0 }

/-- A default-constructed rollback-store plan slot. -/
def emptyPlanSlot : RollbackPlanQ :=
  { policy_id := "", thrust_magnitude_kN := 0, gimbal_theta_rad := 0
    gimbal_phi_rad := 0, rollback_hash := nullHash, valid := false }

/-- A controller state with an empty ledger and an empty 16-slot rollback
store. -/
def ctrlFix : CtrlState :=
  { itl := itlInit
    rollback := { slots := List.replicate 16 emptyPlanSlot, count := 0 }
    is_thrusting := false
    last_command_timestamp := 0 }

/-- A concrete policy. -/
def policyFix : PolicyQ :=
  { id := "P42", thrust_magnitude_kN := 100, gimbal_theta_rad := 0
    gimbal_phi_rad := 0, cost := 1 }

/-- A supervisor state in which channel B is the active channel (the
configuration reached after one failover away from A). -/
def supStateB : SupervisorState :=
  { is_channel_a_active := false
    ctrl_a := { current_state := padStateQ, fallback_log := [] }
    ctrl_b := { current_state := padStateQ, fallback_log := [] }
    metrics := [] }

/-- The HAL state of the replayed rollback call of the idempotence claim:
the same RNG position as before the first call (so `generate_tx_id`
reproduces the same tx id) with the idempotency history left by the first
call. -/
def replayState (draw : RngDraw) (latencyMs : ℕ → ℕ)
    (rollback : RollbackPlanF) (s : HalState) : HalState :=
  { rng := s.rng
    applied := (execute_rollback_plan draw latencyMs rollback s).2.2.applied }

/-- A concrete RNG: each draw returns the position and advances it. -/
def countDraw : RngDraw := fun r => (r, r + 1)

/-- A concrete valid engine-off rollback plan. -/
def planFix : RollbackPlanF :=
  { policy_id := "SAFE_FALLBACK_P", thrust_magnitude_kN := .fin 0
    gimbal_theta_rad := .fin 0, gimbal_phi_rad := .fin 0, valid := true }

/-! ## Claims -/

/-- C10: If `ITLManager::commit` is called while the queue already holds
`ITL_QUEUE_SIZE` (128) entries, it returns the null hash and leaves the
entire ledger state — queue contents and indices, Merkle buffer, flash
write cursor — unchanged: the queue-full error path is atomic. -/
theorem itl_commit_queue_full_atomic (h : HashFn) (s : ITLState)
    (t : ITLEntry) (hfull : ITL_QUEUE_SIZE ≤ s.queue.length) :
    ITLManager.commit h s t = (nullHash, s) := by
  simp [ITLManager.commit, hfull]

/-- Witness for C10 at a queue of exactly 128 default entries. -/
theorem itl_commit_queue_full_atomic_witness :
    ITL_QUEUE_SIZE ≤
        (ITLState.mk (List.replicate 128 ITLEntry.default) [] [] 0).queue.length ∧
    ITLManager.commit hId
        (ITLState.mk (List.replicate 128 ITLEntry.default) [] [] 0)
        (mkTraceEntry 7) =
      (nullHash, ITLState.mk (List.replicate 128 ITLEntry.default) [] [] 0) :=
  ⟨by simp [ITL_QUEUE_SIZE],
   itl_commit_queue_full_atomic hId _ (mkTraceEntry 7) (by simp [ITL_QUEUE_SIZE])⟩

/-- C1: For every entry accepted by `ITLManager::commit`, the id stored and
returned is the hash of exactly the canonical stream
`[type byte][LE timestamp][first effective_payload_len payload bytes]`,
with the effective length read off the enum tag alone — the same per-tag
table (`itl_effective_payload_len`) all producers use — and any
caller-supplied `payload_len` ignored; recomputing the id from the stored
record (`compute_itl_entry_id`) reproduces it. -/
theorem itl_commit_canonical_id (h : HashFn) (s : ITLState) (t : ITLEntry)
    (hroom : s.queue.length < ITL_QUEUE_SIZE) :
    (ITLManager.commit h s t).2.queue = s.queue ++ [storedEntry h t] ∧
    (storedEntry h t).payload_len = effective_payload_len t.type ∧
    (ITLManager.commit h s t).1 =
      h (canonicalBytes t.type t.timestamp_ms t.payload
          (effective_payload_len t.type)) ∧
    (storedEntry h t).entry_id = (ITLManager.commit h s t).1 ∧
    compute_itl_entry_id h (storedEntry h t)
        (itl_effective_payload_len (storedEntry h t).type) =
      (storedEntry h t).entry_id ∧
    (∀ plen, ITLManager.commit h s { t with payload_len := plen } =
      ITLManager.commit h s t) ∧
    (∀ ty, itl_effective_payload_len ty = effective_payload_len ty) := by
  have hnot : ¬ ITL_QUEUE_SIZE ≤ s.queue.length := not_le.mpr hroom
  have htab : ∀ ty, itl_effective_payload_len ty = effective_payload_len ty := by
    intro ty; cases ty <;> rfl
  refine ⟨?_, ?_, ?_, ?_, ?_, ?_, htab⟩
  · simp [ITLManager.commit, hnot]
  · simp [storedEntry]
  · simp [ITLManager.commit, hnot, storedEntry]
  · simp [ITLManager.commit, hnot]
  · simp [compute_itl_entry_id, storedEntry, htab]
  · intro plen
    simp [ITLManager.commit, hnot, storedEntry]

/-- Witness for C1: a concrete commit of a `NOMINAL_TRACE` template into the
fresh ledger. -/
theorem itl_commit_canonical_id_witness :
    itlInit.queue.length < ITL_QUEUE_SIZE ∧
    ((ITLManager.commit hId itlInit (mkTraceEntry 3)).2.queue =
        itlInit.queue ++ [storedEntry hId (mkTraceEntry 3)] ∧
      (storedEntry hId (mkTraceEntry 3)).payload_len =
        effective_payload_len (mkTraceEntry 3).type ∧
      (ITLManager.commit hId itlInit (mkTraceEntry 3)).1 =
        hId (canonicalBytes (mkTraceEntry 3).type (mkTraceEntry 3).timestamp_ms
          (mkTraceEntry 3).payload (effective_payload_len (mkTraceEntry 3).type)) ∧
      (storedEntry hId (mkTraceEntry 3)).entry_id =
        (ITLManager.commit hId itlInit (mkTraceEntry 3)).1 ∧
      compute_itl_entry_id hId (storedEntry hId (mkTraceEntry 3))
          (itl_effective_payload_len (storedEntry hId (mkTraceEntry 3)).type) =
        (storedEntry hId (mkTraceEntry 3)).entry_id ∧
      (∀ plen, ITLManager.commit hId itlInit
          { mkTraceEntry 3 with payload_len := plen } =
        ITLManager.commit hId itlInit (mkTraceEntry 3)) ∧
      (∀ ty, itl_effective_payload_len ty = effective_payload_len ty)) :=
  ⟨by simp [itlInit, ITL_QUEUE_SIZE],
   itl_commit_canonical_id hId itlInit (mkTraceEntry 3)
     (by simp [itlInit, ITL_QUEUE_SIZE])⟩

/-- C4: `DeterministicSafetyMonitor::evaluateSafety` decides in first-match
order: any non-finite scalar input gives FullShutdown; estimated curvature
`R̂ = K·(1−dilation)²` at or above `R_MAX` — with `dilation > 1` counting
as an immediate violation (the estimator returns `+∞` there) — gives
FullShutdown; `A(t) < 0.80` or `J > 1.0e4` gives Rollback; an unhealthy
main controller with resonance amplitude above `0.10` gives Rollback;
otherwise None, the safing latch clearing exactly when it was set and
`R̂ < 0.5·R_MAX`. -/
theorem dsm_evaluate_safety_order (safing : Bool) (i : DsmSensorInputs) :
    (hasInvalidInputs i = true →
      evaluateSafety safing i = (.ACTION_FULL_SHUTDOWN, true)) ∧
    (∀ d A J amp : ℚ, ∀ healthy : Bool,
      i = ⟨.fin d, .fin A, .fin J, .fin amp, healthy⟩ →
      evaluateSafety safing i =
        if 1 < d ∨ DSM_RMAX ≤ DSM_R_FACTOR * ((1 - d) * (1 - d)) then
          (.ACTION_FULL_SHUTDOWN, true)
        else if A < DSM_MIN_A_T ∨ DSM_MAX_J < J then (.ACTION_ROLLBACK, true)
        else if healthy = false ∧ DSM_AMP_CUTOFF < amp then
          (.ACTION_ROLLBACK, true)
        else (.ACTION_NONE,
          if safing = true ∧
              DSM_R_FACTOR * ((1 - d) * (1 - d)) < DSM_RMAX * (1 / 2)
            then false else safing)) := by
  constructor
  · intro hinv
    simp [evaluateSafety, hinv]
  · intro d A J amp healthy hi
    subst hi
    have hfin :
        hasInvalidInputs ⟨.fin d, .fin A, .fin J, .fin amp, healthy⟩ = false := by
      simp [hasInvalidInputs, F64.isFinite]
    by_cases hd : 1 < d
    · have hts : F64.lt (F64.sub (.fin 1) (.fin d)) (.fin 0) = true := by
        simp [F64.sub, F64.lt]; linarith
      simp [evaluateSafety, hfin, estimateCurvatureScalar, hts,
        checkCurvatureViolation, F64.le, hd]
    · have hts : F64.lt (F64.sub (.fin 1) (.fin d)) (.fin 0) = false := by
        simp [F64.sub, F64.lt]; linarith [le_of_not_lt hd]
      simp only [evaluateSafety, hfin, Bool.false_eq_true, if_false,
        estimateCurvatureScalar, hts, F64.sub, F64.mul]
      simp [checkCurvatureViolation, checkResonanceStability, F64.le, F64.lt,
        hd, Bool.and_eq_true, Bool.not_eq_true]
      split_ifs <;> simp_all

/-- Witness for C4: a nominal finite input with the latch set; the monitor
returns None and clears the latch (`R̂ = 0 < 0.5·R_MAX`). -/
theorem dsm_evaluate_safety_order_witness :
    evaluateSafety true ⟨.fin 1, .fin 1, .fin 0, .fin 0, true⟩ =
      (.ACTION_NONE, false) := by
  have h :=
    (dsm_evaluate_safety_order true ⟨.fin 1, .fin 1, .fin 0, .fin 0, true⟩).2
      1 1 0 0 true rfl
  rw [h]
  norm_num [DSM_RMAX, DSM_R_FACTOR, DSM_MIN_A_T, DSM_MAX_J, DSM_AMP_CUTOFF]

/-- C6: the AILEE decision bands of
`RAPSController::step_validate_and_execute`: confidence `≥ 0.90` is
Accepted (and the policy is executed directly); `0.70 ≤ c < 0.90` goes to
the grace re-evaluation, which passes exactly when the grace confidence
reaches `0.72`; `c < 0.70` is outright rejected; the boundaries `0.90` and
`0.70` fall into the accept and borderline bands respectively. -/
theorem ailee_confidence_bands (c : ℚ) :
    (AILEE_CONFIDENCE_ACCEPTED ≤ c →
      aileeFinalStatus c = .ACCEPTED ∧
      aileeExecutes (aileeFinalStatus c) = true) ∧
    (AILEE_CONFIDENCE_BORDERLINE ≤ c → c < AILEE_CONFIDENCE_ACCEPTED →
      aileeFinalStatus c = run_grace_period c ∧
      (aileeFinalStatus c = .GRACE_PASS ↔ AILEE_GRACE_THRESHOLD ≤ c) ∧
      (¬ AILEE_GRACE_THRESHOLD ≤ c → aileeFinalStatus c = .GRACE_FAIL)) ∧
    (c < AILEE_CONFIDENCE_BORDERLINE →
      aileeFinalStatus c = .OUTRIGHT_REJECTED) ∧
    aileeFinalStatus AILEE_CONFIDENCE_ACCEPTED = .ACCEPTED ∧
    aileeFinalStatus AILEE_CONFIDENCE_BORDERLINE =
      run_grace_period AILEE_CONFIDENCE_BORDERLINE ∧
    run_grace_period AILEE_CONFIDENCE_BORDERLINE = .GRACE_FAIL := by
  refine ⟨?_, ?_, ?_, ?_, ?_, ?_⟩
  · intro hacc
    constructor
    · simp [aileeFinalStatus, hacc]
    · simp [aileeFinalStatus, hacc, aileeExecutes]
  · intro hbl hacc
    have hnacc : ¬ AILEE_CONFIDENCE_ACCEPTED ≤ c := not_le.mpr hacc
    refine ⟨by simp [aileeFinalStatus, hnacc, hbl], ?_, ?_⟩
    · constructor
      · intro hgp
        by_contra hng
        simp [aileeFinalStatus, hnacc, hbl, run_grace_period, hng] at hgp
      · intro hg
        simp [aileeFinalStatus, hnacc, hbl, run_grace_period, hg]
    · intro hng
      simp [aileeFinalStatus, hnacc, hbl, run_grace_period, hng]
  · intro hrej
    have h1 : ¬ AILEE_CONFIDENCE_ACCEPTED ≤ c := by
      simp only [AILEE_CONFIDENCE_ACCEPTED]
      simp only [AILEE_CONFIDENCE_BORDERLINE] at hrej
      intro hle; linarith
    have h2 : ¬ AILEE_CONFIDENCE_BORDERLINE ≤ c := not_le.mpr hrej
    simp [aileeFinalStatus, h1, h2]
  · simp [aileeFinalStatus]
  · have h1 : ¬ AILEE_CONFIDENCE_ACCEPTED ≤ AILEE_CONFIDENCE_BORDERLINE := by
      norm_num [AILEE_CONFIDENCE_ACCEPTED, AILEE_CONFIDENCE_BORDERLINE]
    simp [aileeFinalStatus, h1]
  · simp [run_grace_period, AILEE_GRACE_THRESHOLD,
      AILEE_CONFIDENCE_BORDERLINE]
    norm_num

/-- Witness for C6 at the exact accept boundary `c = 0.90`. -/
theorem ailee_confidence_bands_witness :
    aileeFinalStatus (9 / 10) = .ACCEPTED ∧
    aileeExecutes (aileeFinalStatus (9 / 10)) = true :=
  (ailee_confidence_bands (9 / 10)).1
    (by norm_num [AILEE_CONFIDENCE_ACCEPTED])

/-- Counterexample for C5: with `R_EARTH_M = 6371000`, a predicted end
state whose x-velocity is 30000 m/s — beyond the repository's own per-axis
bound `MAX_VELOCITY_M_S` = 20000, hence out of bounds under any reading of
the spec's velocity envelope — passes `check_safety_bounds`, so
`validate_policy` returns the model confidence `4/5` instead of forcing
`0`: the envelope of the code contains no effective velocity condition. -/
theorem ailee_envelope_velocity_cex :
    fastEndState.velocity_m_s.1 = 30000 ∧
    MAX_VELOCITY_M_S < fastEndState.velocity_m_s.1 ∧
    check_safety_bounds 6371000 fastEndState = true ∧
    validate_policy_confidence 6371000 fastEndState (4 / 5) = 4 / 5 ∧
    ¬ validate_policy_confidence 6371000 fastEndState (4 / 5) = 0 := by
  refine ⟨rfl, by norm_num [MAX_VELOCITY_M_S, fastEndState], ?_, ?_, ?_⟩ <;>
    norm_num [check_safety_bounds, validate_policy_confidence, radiusSq,
      velMagSq, MIN_MASS_KG, fastEndState]

/-- C5 as amended: `validate_policy` forces the returned confidence to
exactly `0` whenever the predicted end state has mass below `MIN_MASS` or
radius below `0.95·R_ref` (compared on squares), and returns the model
confidence unchanged whenever both bounds hold — in particular a radius of
exactly `0.95·R_ref` passes and any smaller radius fails; the velocity
clause of the drafted envelope has no counterpart in the code (its
magnitude-below-zero check can never fire). -/
theorem validate_policy_envelope_amended (R : ℚ) (st : PhysicsStateQ)
    (conf : ℚ) :
    (st.mass_kg < MIN_MASS_KG ∨ radiusSq st < (95 / 100 * R) ^ 2 →
      validate_policy_confidence R st conf = 0) ∧
    (MIN_MASS_KG ≤ st.mass_kg → (95 / 100 * R) ^ 2 ≤ radiusSq st →
      validate_policy_confidence R st conf = conf) := by
  have hvel : ¬ (velMagSq st < 0 ∧ 100000 < st.mass_kg) := by
    rintro ⟨hv, -⟩
    rw [velMagSq] at hv
    nlinarith [mul_self_nonneg st.velocity_m_s.1,
      mul_self_nonneg st.velocity_m_s.2.1,
      mul_self_nonneg st.velocity_m_s.2.2]
  constructor
  · rintro (hm | hr)
    · simp [validate_policy_confidence, check_safety_bounds, hm]
    · by_cases hm : st.mass_kg < MIN_MASS_KG
      · simp [validate_policy_confidence, check_safety_bounds, hm]
      · simp [validate_policy_confidence, check_safety_bounds, hm, hr]
  · intro hm hr
    have hm' : ¬ st.mass_kg < MIN_MASS_KG := not_lt.mpr hm
    have hr' : ¬ radiusSq st < (95 / 100 * R) ^ 2 := not_lt.mpr hr
    simp [validate_policy_confidence, check_safety_bounds, hm', hr', hvel]

/-- Witness for C5 (amended) at the exact envelope boundary: for
`R_EARTH_M = 6371000` the end radius `6052450 = 0.95·R` passes and the
model confidence flows through unchanged. -/
theorem validate_policy_envelope_amended_witness :
    validate_policy_confidence 6371000 boundaryEndState (4 / 5) = 4 / 5 :=
  (validate_policy_envelope_amended 6371000 boundaryEndState (4 / 5)).2
    (by norm_num [boundaryEndState, MIN_MASS_KG])
    (by norm_num [boundaryEndState, radiusSq])

/-- Counterexample for C7: with channel B active,
`notify_failure(PRIMARY_CHANNEL_LOCKUP)` does not switch the active
channel back to A and invokes no fallback path; it emits the
fatal-system-halt metric instead — although only the currently active
channel has been reported failed. -/
theorem supervisor_failover_channel_b_cex :
    supStateB.is_channel_a_active = false ∧
    (notify_failure .PRIMARY_CHANNEL_LOCKUP supStateB).is_channel_a_active
        = false ∧
    (notify_failure .PRIMARY_CHANNEL_LOCKUP supStateB).ctrl_a.fallback_log
        = [] ∧
    (notify_failure .PRIMARY_CHANNEL_LOCKUP supStateB).ctrl_b.fallback_log
        = [] ∧
    "supervisor.fatal_system_halt" ∈
      (notify_failure .PRIMARY_CHANNEL_LOCKUP supStateB).metrics := by
  decide

/-- C7 as amended: for the three critical failure modes, `notify_failure`
behaves asymmetrically. With channel A active it logs the exception,
switches the active channel to B, copies B's current state into the
now-inactive channel A (the post-switch sync writes the inactive channel,
not the newly active one), and invokes B's fallback path with reason
"Failover Switch"; no fatal-halt metric is emitted on this path. With
channel B already active it changes neither channel assignment nor channel
state and emits the fatal-system-halt metric. -/
theorem supervisor_notify_failure_amended (mode : FailureMode)
    (s : SupervisorState) (hc : isCriticalMode mode = true) :
    (s.is_channel_a_active = true →
      notify_failure mode s =
        { is_channel_a_active := false
          ctrl_a := { s.ctrl_a with current_state := s.ctrl_b.current_state }
          ctrl_b := { s.ctrl_b with
            fallback_log := s.ctrl_b.fallback_log ++ ["Failover Switch"] }
          metrics := s.metrics ++
            ["supervisor.exception", "supervisor.failover",
             "supervisor.sync_complete", "supervisor.active_channel",
             "supervisor.switch_count"] }) ∧
    (s.is_channel_a_active = false →
      notify_failure mode s =
        { s with metrics := s.metrics ++
            ["supervisor.exception", "supervisor.fatal_system_halt"] }) := by
  obtain ⟨act, ca, cb, ms⟩ := s
  constructor
  · intro ha
    subst ha
    simp [notify_failure, log_supervisor_exception, hc, switch_to_channel_b,
      synchronize_inactive_controller, updateSnapshot]
  · intro hb
    subst hb
    simp [notify_failure, log_supervisor_exception, hc]

/-- Witness for C7 (amended): a concrete lockup notification while channel
A is active performs the failover onto channel B. -/
theorem supervisor_notify_failure_amended_witness :
    notify_failure .PRIMARY_CHANNEL_LOCKUP
        { is_channel_a_active := true
          ctrl_a := { current_state := padStateQ, fallback_log := [] }
          ctrl_b := { current_state := fastEndState, fallback_log := [] }
          metrics := [] } =
      { is_channel_a_active := false
        ctrl_a := { current_state := fastEndState, fallback_log := [] }
        ctrl_b := { current_state := fastEndState,
                    fallback_log := ["Failover Switch"] }
        metrics := ["supervisor.exception", "supervisor.failover",
          "supervisor.sync_complete", "supervisor.active_channel",
          "supervisor.switch_count"] } := by
  have h :=
    (supervisor_notify_failure_amended .PRIMARY_CHANNEL_LOCKUP
      { is_channel_a_active := true
        ctrl_a := { current_state := padStateQ, fallback_log := [] }
        ctrl_b := { current_state := fastEndState, fallback_log := [] }
        metrics := [] } (by decide)).1 rfl
  simpa using h

/-- C9: `execute_rollback_plan` is idempotent under replay: if a call from
HAL state `s` succeeds, then a second call with the same plan and the same
HAL tx-generation state (same RNG position, with the idempotency history
left behind by the first call — `replayState`) regenerates the same tx id,
which the actuator treats as a no-op (the applied-tx set is unchanged), and
returns success. -/
theorem rollback_replay_idempotent (draw : RngDraw) (latencyMs : ℕ → ℕ)
    (plan : RollbackPlanF) (s : HalState)
    (hok : (execute_rollback_plan draw latencyMs plan s).1 = true) :
    (execute_rollback_plan draw latencyMs plan
        (replayState draw latencyMs plan s)).1 = true ∧
    (execute_rollback_plan draw latencyMs plan
        (replayState draw latencyMs plan s)).2.1 =
      (execute_rollback_plan draw latencyMs plan s).2.1 ∧
    (execute_rollback_plan draw latencyMs plan
        (replayState draw latencyMs plan s)).2.2.applied =
      (execute_rollback_plan draw latencyMs plan s).2.2.applied := by
  have hv : plan.valid = true := by
    cases hb : plan.valid
    · simp [execute_rollback_plan, hb] at hok
    · rfl
  have hth : F64.lt plan.thrust_magnitude_kN (.fin 0) = false := by
    cases hb : F64.lt plan.thrust_magnitude_kN (.fin 0)
    · rfl
    · simp [execute_rollback_plan, hv, hb] at hok
  have hg1 : plan.gimbal_theta_rad.isFinite = true := by
    cases hb : plan.gimbal_theta_rad.isFinite
    · simp [execute_rollback_plan, hv, hth, hb] at hok
    · rfl
  have hg2 : plan.gimbal_phi_rad.isFinite = true := by
    cases hb : plan.gimbal_phi_rad.isFinite
    · simp [execute_rollback_plan, hv, hth, hg1, hb] at hok
    · rfl
  have hunfold : ∀ st : HalState,
      execute_rollback_plan draw latencyMs plan st =
        if (generate_tx_id draw st.rng).1 = "" then
          (false, (generate_tx_id draw st.rng).1,
            { st with rng := (generate_tx_id draw st.rng).2 })
        else
          ((actuator_execute draw latencyMs (generate_tx_id draw st.rng).1
              (WATCHDOG_MS / 4) { st with rng := (generate_tx_id draw st.rng).2 }).1,
           (generate_tx_id draw st.rng).1,
           (actuator_execute draw latencyMs (generate_tx_id draw st.rng).1
              (WATCHDOG_MS / 4) { st with rng := (generate_tx_id draw st.rng).2 }).2) := by
    intro st
    unfold execute_rollback_plan
    rw [if_neg (by simp [hv]), if_neg (by simp [hth]), if_neg (by simp [hg1]),
      if_neg (by simp [hg2])]
  have hact : ∀ (tx : String) (t : ℕ) (q : List String) (r : ℕ), ¬ tx = "" →
      actuator_execute draw latencyMs tx t ⟨r, q⟩ =
        if tx ∈ q then (true, ⟨(draw r).2, q⟩)
        else if t < latencyMs ((draw (draw r).2).1) then
          (false, ⟨(draw (draw r).2).2, q⟩)
        else (true, ⟨(draw (draw r).2).2, tx :: q⟩) := by
    intro tx t q r hne
    unfold actuator_execute
    rw [if_neg hne]
  have htx : ¬ (generate_tx_id draw s.rng).1 = "" := by
    intro habs
    rw [hunfold s, if_pos habs] at hok
    exact Bool.false_ne_true hok
  obtain ⟨srng, sapp⟩ := s
  rw [hunfold ⟨srng, sapp⟩, if_neg htx] at hok
  dsimp only at hok
  rw [hact _ _ _ _ htx] at hok
  have hmem : (generate_tx_id draw srng).1 ∈
      (actuator_execute draw latencyMs (generate_tx_id draw srng).1
        (WATCHDOG_MS / 4) ⟨(generate_tx_id draw srng).2, sapp⟩).2.applied := by
    rw [hact _ _ _ _ htx]
    by_cases hm : (generate_tx_id draw srng).1 ∈ sapp
    · rw [if_pos hm]
      exact hm
    · rw [if_neg hm] at hok ⊢
      by_cases hlat : WATCHDOG_MS / 4 <
          latencyMs ((draw (draw (generate_tx_id draw srng).2).2).1)
      · rw [if_pos hlat] at hok
        exact absurd hok (by simp)
      · rw [if_neg hlat]
        exact List.mem_cons_self _ _
  have hrepl : replayState draw latencyMs plan ⟨srng, sapp⟩ =
      ⟨srng, (actuator_execute draw latencyMs (generate_tx_id draw srng).1
        (WATCHDOG_MS / 4) ⟨(generate_tx_id draw srng).2, sapp⟩).2.applied⟩ := by
    rw [replayState, hunfold ⟨srng, sapp⟩, if_neg htx]
  rw [hrepl, hunfold ⟨srng, (actuator_execute draw latencyMs
      (generate_tx_id draw srng).1 (WATCHDOG_MS / 4)
      ⟨(generate_tx_id draw srng).2, sapp⟩).2.applied⟩,
    hunfold ⟨srng, sapp⟩, if_neg htx, if_neg htx]
  dsimp only
  rw [hact _ _ _ _ htx, if_pos hmem]
  dsimp only
  exact ⟨rfl, rfl, rfl⟩

/-- Witness for C9: a concrete successful rollback execution (counting RNG,
zero latency, valid engine-off plan) replayed from the same RNG position is
a no-op success with the same tx id. -/
theorem rollback_replay_idempotent_witness :
    ((execute_rollback_plan countDraw (fun _ => 0) planFix ⟨0, []⟩).1 = true) ∧
    ((execute_rollback_plan countDraw (fun _ => 0) planFix
        (replayState countDraw (fun _ => 0) planFix ⟨0, []⟩)).1 = true ∧
      (execute_rollback_plan countDraw (fun _ => 0) planFix
          (replayState countDraw (fun _ => 0) planFix ⟨0, []⟩)).2.1 =
        (execute_rollback_plan countDraw (fun _ => 0) planFix ⟨0, []⟩).2.1 ∧
      (execute_rollback_plan countDraw (fun _ => 0) planFix
          (replayState countDraw (fun _ => 0) planFix ⟨0, []⟩)).2.2.applied =
        (execute_rollback_plan countDraw (fun _ => 0) planFix ⟨0, []⟩).2.2.applied) :=
  ⟨by decide,
   rollback_replay_idempotent countDraw (fun _ => 0) planFix ⟨0, []⟩ (by decide)⟩

/-- Elementwise bounds on a sum over `List.range` (helper). -/
theorem sum_range_map_bounds (f : ℕ → ℚ) (lo hi : ℚ)
    (h : ∀ i, lo ≤ f i ∧ f i ≤ hi) :
    ∀ n : ℕ, (n : ℚ) * lo ≤ ((List.range n).map f).sum ∧
      ((List.range n).map f).sum ≤ (n : ℚ) * hi := by
  intro n
  induction n with
  | zero => simp
  | succ m ih =>
    rw [List.range_succ, List.map_append, List.sum_append]
    obtain ⟨h1, h2⟩ := ih
    obtain ⟨h3, h4⟩ := h m
    push_cast
    constructor <;> simp only [List.map_cons, List.map_nil, List.sum_cons,
      List.sum_nil, add_zero] <;> nlinarith

/-- Counterexample for C8: at the default-initialized stability index `1.0`
with a single Monte Carlo run whose stability noise draw is `+0.05` (inside
the `uniform(-0.05, 0.05)` support) the predictor reports confidence
`21/20 > 1`: `HlvPdtEngine::predict` never clamps the mean perturbed
stability, so the reported confidence is not confined to `[0, 1]`. -/
theorem hlv_confidence_unit_interval_cex :
    (hlvPredict ⟨0, 0, 1, 0⟩ 1 300 (fun _ => 1 / 20)).confidence = 21 / 20 ∧
    ¬ (hlvPredict ⟨0, 0, 1, 0⟩ 1 300 (fun _ => 1 / 20)).confidence ≤ 1 := by
  have h0 : Rat.sqrt 0 = 0 := by simp
  have hr : List.range 1 = [0] := rfl
  have hc : (hlvPredict ⟨0, 0, 1, 0⟩ 1 300 (fun _ => 1 / 20)).confidence
      = 21 / 20 := by
    simp only [hlvPredict, hr, List.map_cons, List.map_nil, List.sum_cons,
      List.sum_nil, List.filter, MAX_WARP_FIELD_STRENGTH]
    norm_num [h0]
  refine ⟨hc, ?_⟩
  rw [hc]
  norm_num

/-- C8 as amended: the predictor's confidence is always nonnegative, and it
lies in `[0, 1]` whenever the input stability index (together with the
`±0.05` noise amplitude) keeps the mean perturbed stability inside `[0, 1]`
— e.g. for a stability index in `[0.05, 0.95]`; an index above that (the
struct default is `1.0`) can push the confidence above `1`. -/
theorem hlv_confidence_bounds_amended (st : SpacetimeStateQ) (runs : ℕ)
    (horizon : ℕ) (noise : ℕ → ℚ) (hruns : 1 ≤ runs)
    (hnoise : ∀ k, |noise k| ≤ 1 / 20)
    (hlo : 1 / 20 ≤ st.spacetime_stability_index)
    (hhi : st.spacetime_stability_index ≤ 19 / 20) :
    0 ≤ (hlvPredict st runs horizon noise).confidence ∧
    (hlvPredict st runs horizon noise).confidence ≤ 1 := by
  have hrq : (0 : ℚ) < (runs : ℚ) := by exact_mod_cast hruns
  simp only [hlvPredict]
  set W := (List.range runs).map (fun i => st.warp_field_strength + noise (3 * i))
    with hW
  set S := ((List.range runs).map
    (fun i => st.spacetime_stability_index + noise (3 * i + 2))).sum with hS
  set Q := (W.map (fun w => (w - W.sum / (runs : ℚ)) *
    (w - W.sum / (runs : ℚ)))).sum with hQ
  set U := Rat.sqrt (Q / (runs : ℚ)) / MAX_WARP_FIELD_STRENGTH * 5 with hU
  set C := (W.filter (fun w => MAX_WARP_FIELD_STRENGTH * (95 / 100) ≤ w)).length
    with hC
  have hU0 : 0 ≤ U := by
    rw [hU, MAX_WARP_FIELD_STRENGTH]
    have h := Rat.sqrt_nonneg (Q / (runs : ℚ))
    positivity
  set u := (if U < 1 then U else 1) with hu
  have hun0 : 0 ≤ u := by
    rw [hu]
    split_ifs
    · exact hU0
    · exact zero_le_one
  have hun1 : u ≤ 1 := by
    rw [hu]
    split_ifs with h
    · exact le_of_lt h
    · exact le_refl 1
  have hsb := sum_range_map_bounds
    (fun i => st.spacetime_stability_index + noise (3 * i + 2))
    (st.spacetime_stability_index - 1 / 20)
    (st.spacetime_stability_index + 1 / 20)
    (by
      intro i
      have := abs_le.mp (hnoise (3 * i + 2))
      constructor <;> simp <;> linarith [this.1, this.2]) runs
  rw [← hS] at hsb
  have hmean0 : 0 ≤ S / (runs : ℚ) := by
    apply div_nonneg _ (le_of_lt hrq)
    nlinarith [hsb.1]
  have hmean1 : S / (runs : ℚ) ≤ 1 := by
    rw [div_le_one hrq]
    nlinarith [hsb.2]
  have hbase0 : 0 ≤ (1 - u) * (S / (runs : ℚ)) :=
    mul_nonneg (by linarith) hmean0
  have hbase1 : (1 - u) * (S / (runs : ℚ)) ≤ 1 :=
    mul_le_one₀ (by linarith) hmean0 hmean1
  have hP0 : 0 ≤ (C : ℚ) / (runs : ℚ) * (1 / 2) := by positivity
  constructor
  · split_ifs with h
    · linarith
    · exact le_refl 0
  · split_ifs with h
    · linarith
    · exact zero_le_one

/-- Witness for C8 (amended) at stability index `1/2`, one run, zero
noise. -/
theorem hlv_confidence_bounds_amended_witness :
    0 ≤ (hlvPredict ⟨0, 0, 1 / 2, 0⟩ 1 300 (fun _ => 0)).confidence ∧
    (hlvPredict ⟨0, 0, 1 / 2, 0⟩ 1 300 (fun _ => 0)).confidence ≤ 1 :=
  hlv_confidence_bounds_amended ⟨0, 0, 1 / 2, 0⟩ 1 300 (fun _ => 0)
    (le_refl 1) (fun k => by norm_num) (by norm_num) (by norm_num)

/-- Counterexample for C2: a successfully executed policy (actuator
succeeds, `CommandCommit` is committed) leaves exactly the ledger entry
sequence `[COMMAND_PENDING, COMMAND_COMMIT]` for the cycle — no
`ROLLBACK_METADATA` ledger entry is committed anywhere in the C++ flight
path; the executed policy's engine-off fallback goes only into the
`SafetyMonitor` rollback store. -/
theorem raps_execute_no_rollback_metadata_cex :
    ((step_execute_command hId "aabbccddeeff001122334455" true
        ⟨"ffeeddccbbaa998877665544", true⟩ 5 policyFix ctrlFix).itl.queue.map
      (fun e => e.type)) =
      [EntryType.COMMAND_PENDING, EntryType.COMMAND_COMMIT] ∧
    EntryType.ROLLBACK_METADATA ∉
      ((step_execute_command hId "aabbccddeeff001122334455" true
        ⟨"ffeeddccbbaa998877665544", true⟩ 5 policyFix ctrlFix).itl.queue.map
      (fun e => e.type)) ∧
    ((get_last_safe_rollback
        (step_execute_command hId "aabbccddeeff001122334455" true
          ⟨"ffeeddccbbaa998877665544", true⟩ 5 policyFix ctrlFix).rollback).map
      (fun p => p.policy_id)) = some "P42" := by
  refine ⟨?_, ?_, ?_⟩ <;> set_option maxRecDepth 4000 in decide

/-- C2 as amended: on a successful execution, `step_execute_command`
commits `COMMAND_PENDING` and `COMMAND_COMMIT` to the ledger (and nothing
else — in particular the count of `ROLLBACK_METADATA` entries in the queue
is unchanged), and records an engine-off rollback plan referencing the
executed policy in the `SafetyMonitor` rollback store, which
`get_last_safe_rollback` then returns; no `RollbackMetadata` ledger entry
is emitted. -/
theorem raps_execute_rollback_store_amended (h : HashFn) (tx : String)
    (fb : FallbackHal) (now : ℕ) (policy : PolicyQ) (s : CtrlState)
    (hroom : s.itl.queue.length + 2 ≤ ITL_QUEUE_SIZE)
    (hslots : s.rollback.slots.length = MAX_ROLLBACK_STORE) :
    ((step_execute_command h tx true fb now policy s).itl.queue.map
        (fun e => e.type)) =
      s.itl.queue.map (fun e => e.type) ++
        [.COMMAND_PENDING, .COMMAND_COMMIT] ∧
    ((step_execute_command h tx true fb now policy s).itl.queue.map
        (fun e => e.type)).count .ROLLBACK_METADATA =
      (s.itl.queue.map (fun e => e.type)).count .ROLLBACK_METADATA ∧
    get_last_safe_rollback
        (step_execute_command h tx true fb now policy s).rollback =
      some { policy_id := policy.id.take 31, thrust_magnitude_kN := 0,
             gimbal_theta_rad := 0, gimbal_phi_rad := 0,
             rollback_hash := h (qBytes 0 ++ qBytes 0 ++ qBytes 0),
             valid := true } := by
  have h1 : ¬ ITL_QUEUE_SIZE ≤ s.itl.queue.length := by omega
  have h2 : ¬ ITL_QUEUE_SIZE ≤ s.itl.queue.length + 1 := by omega
  have hq : (step_execute_command h tx true fb now policy s).itl.queue =
      s.itl.queue ++ [storedEntry h
        { type := .COMMAND_PENDING, timestamp_ms := now, entry_id := nullHash
          payload := cmdExecPayloadBytes tx, payload_len := 0 },
        storedEntry h
        { type := .COMMAND_COMMIT, timestamp_ms := now, entry_id := nullHash
          payload := cmdExecPayloadBytes tx, payload_len := 0 }] := by
    simp only [step_execute_command, ITLManager.commit, h1, if_true, if_false,
      ite_true, ite_false]
    rw [if_neg (by simpa using h2)]
    simp [List.append_assoc]
  refine ⟨?_, ?_, ?_⟩
  · rw [hq]
    simp [storedEntry]
  · rw [hq]
    simp only [List.map_append, List.count_append, storedEntry]
    norm_num
    rfl
  · simp only [step_execute_command, if_true, ite_true]
    set c := (if MAX_ROLLBACK_STORE ≤ s.rollback.count then 0
      else s.rollback.count) with hc
    have hclt : c < s.rollback.slots.length := by
      rw [hslots, hc]
      split_ifs with hcnt
      · simp [MAX_ROLLBACK_STORE]
      · simp only [MAX_ROLLBACK_STORE] at hcnt ⊢
        omega
    simp only [commit_rollback_plan, get_last_safe_rollback, ← hc]
    rw [if_pos (Nat.succ_pos c)]
    simp only [Nat.add_sub_cancel]
    rw [List.get?_eq_getElem?]
    exact List.getElem?_set_eq_of_lt _ (by simpa using hclt)

/-- Witness for C2 (amended) on the concrete fixture controller state. -/
theorem raps_execute_rollback_store_amended_witness :
    ((step_execute_command hId "aabbccddeeff001122334455" true
        ⟨"ffeeddccbbaa998877665544", true⟩ 5 policyFix ctrlFix).itl.queue.map
        (fun e => e.type)) =
      ctrlFix.itl.queue.map (fun e => e.type) ++
        [.COMMAND_PENDING, .COMMAND_COMMIT] ∧
    ((step_execute_command hId "aabbccddeeff001122334455" true
        ⟨"ffeeddccbbaa998877665544", true⟩ 5 policyFix ctrlFix).itl.queue.map
        (fun e => e.type)).count .ROLLBACK_METADATA =
      (ctrlFix.itl.queue.map (fun e => e.type)).count .ROLLBACK_METADATA ∧
    get_last_safe_rollback
        (step_execute_command hId "aabbccddeeff001122334455" true
          ⟨"ffeeddccbbaa998877665544", true⟩ 5 policyFix ctrlFix).rollback =
      some { policy_id := policyFix.id.take 31, thrust_magnitude_kN := 0,
             gimbal_theta_rad := 0, gimbal_phi_rad := 0,
             rollback_hash := hId (qBytes 0 ++ qBytes 0 ++ qBytes 0),
             valid := true } :=
  raps_execute_rollback_store_amended hId "aabbccddeeff001122334455"
    ⟨"ffeeddccbbaa998877665544", true⟩ 5 policyFix ctrlFix
    (by simp [ctrlFix, itlInit, ITL_QUEUE_SIZE])
    (by simp [ctrlFix, MAX_ROLLBACK_STORE])

/-- Helper: with flash writes always succeeding, flushing at most enough
entries to fill the Merkle buffer writes them all, appends their ids to the
buffer, and emits no anchor. -/
theorem flushGo_ok_no_anchor (h : HashFn) (now : ℕ) :
    ∀ (q : List ITLEntry) (m : MSt),
      m.merkle.length + q.length ≤ MERKLE_BATCH_SIZE →
      flushGo h (fun _ => true) now q m =
        (⟨m.merkle ++ q.map (fun e => e.entry_id),
          m.flash ++ q, m.cursor + q.length * itlEntrySize⟩, []) := by
  intro q
  induction q with
  | nil =>
    intro m hm
    obtain ⟨mm, mf, mc⟩ := m
    simp [flushGo]
  | cons e rest ih =>
    intro m hm
    obtain ⟨mm, mf, mc⟩ := m
    simp only [List.length_cons] at hm
    have hlen : mm.length < MERKLE_BATCH_SIZE := by omega
    simp only [flushGo, if_true]
    rw [flushMerkleStep, if_pos hlen]
    rw [ih ⟨mm ++ [e.entry_id], mf ++ [e], mc + itlEntrySize⟩
      (by simp only [List.length_append, List.length_cons, List.length_nil]
          omega)]
    simp [List.append_assoc]
    ring

/-- Helper: with flash writes always succeeding, the flush loop processes
an appended queue sequentially. -/
theorem flushGo_ok_append (h : HashFn) (now : ℕ) :
    ∀ (q1 q2 : List ITLEntry) (m : MSt),
      flushGo h (fun _ => true) now (q1 ++ q2) m =
        flushGo h (fun _ => true) now q2
          (flushGo h (fun _ => true) now q1 m).1 := by
  intro q1
  induction q1 with
  | nil =>
    intro q2 m
    cases q2 <;> simp [flushGo]
  | cons e rest ih =>
    intro q2 m
    simp only [List.cons_append, flushGo, if_true]
    exact ih q2 _

/-- Helper: committing a batch that fits in the queue appends the prepared
entries in order and touches nothing else. -/
theorem commitList_all_ok (h : HashFn) :
    ∀ (ts : List ITLEntry) (s : ITLState),
      s.queue.length + ts.length ≤ ITL_QUEUE_SIZE →
      commitList h s ts =
        { s with queue := s.queue ++ ts.map (storedEntry h) } := by
  intro ts
  induction ts with
  | nil =>
    intro s hs
    obtain ⟨sq, sm, sf, sc⟩ := s
    simp [commitList]
  | cons t rest ih =>
    intro s hs
    simp only [List.length_cons] at hs
    simp only [commitList, List.foldl_cons]
    rw [ITLManager.commit, if_neg (by omega)]
    have := ih { s with queue := s.queue ++ [storedEntry h t] }
      (by simp only [List.length_append, List.length_cons, List.length_nil]
          omega)
    simp only [commitList] at this
    rw [this]
    simp [List.append_assoc]

/-- Counterexample for C3: committing exactly `MERKLE_BATCH_SIZE` = 32
entries into a fresh ledger and flushing to (always-succeeding) flash emits
no `MerkleAnchor` at all — the buffer just sits full (32 ids): anchoring is
not triggered when the buffer reaches 32. -/
theorem merkle_anchor_at_32_cex :
    ((flush_pending hId (fun _ => true) 99
        (commitList hId itlInit trace32)).flash.filter
        (fun e => e.type = EntryType.MERKLE_ANCHOR)).length = 0 ∧
    (flush_pending hId (fun _ => true) 99
        (commitList hId itlInit trace32)).merkle.length = 32 := by
  set_option maxRecDepth 40000 in decide

/-- C3 as amended: the ledger emits the anchor lazily — only when the flush
loop meets a 33rd id while the buffer already holds 32.  Committing 33
(non-anchor) entries into a fresh ledger and flushing with always-succeeding
flash writes produces exactly one `MerkleAnchor` record, whose root is the
binary Merkle root (duplicate-last-node rule, pairs hashed over the
concatenated 64 bytes) of the first 32 entry ids in commit order. -/
theorem merkle_anchor_on_33rd_flush (h : HashFn) (now : ℕ)
    (ts : List ITLEntry) (hlen : ts.length = 33)
    (hna : ∀ t ∈ ts, t.type ≠ EntryType.MERKLE_ANCHOR) :
    ((flush_pending h (fun _ => true) now
        (commitList h itlInit ts)).flash.filter
        (fun e => e.type = EntryType.MERKLE_ANCHOR)) =
      [mkMerkleAnchorEntry h now (compute_merkle_root h
        ((ts.take 32).map (fun t => (storedEntry h t).entry_id)))] := by
  have hcl := commitList_all_ok h ts itlInit
    (by simp [itlInit, ITL_QUEUE_SIZE, hlen])
  rw [hcl]
  set q := ts.map (storedEntry h) with hq
  have hqlen : q.length = 33 := by simp [hq, hlen]
  have hq32 : 32 < q.length := by omega
  have hsplit : List.take 32 q ++ List.drop 32 q = q := List.take_append_drop 32 q
  obtain ⟨e33, hdrop⟩ : ∃ e, q.drop 32 = [e] := by
    refine ⟨q[32], ?_⟩
    rw [List.drop_eq_getElem_cons hq32]
    have h33 : q.drop 33 = [] := by
      apply List.drop_eq_nil_of_le
      omega
    simp [h33]
  have he33 : e33 ∈ q := by
    apply List.mem_of_mem_drop (n := 32)
    simp [hdrop]
  have htake : (List.take 32 q).length = 32 := by
    simp [List.length_take, hqlen]
  simp only [flush_pending, itlInit, List.nil_append]
  rw [← hsplit, flushGo_ok_append h now]
  rw [flushGo_ok_no_anchor h now (q.take 32) ⟨[], [], 0⟩
    (by simp [List.length_take, hqlen, MERKLE_BATCH_SIZE])]
  rw [hdrop]
  simp only [flushGo, if_true]
  rw [flushMerkleStep, if_neg (by
    simp only [List.nil_append, List.length_map, htake, MERKLE_BATCH_SIZE]
    omega)]
  rw [process_merkle_batch, if_neg (by
    dsimp only
    rw [List.nil_append]
    intro habs
    have h32 := congrArg List.length habs
    rw [List.length_map, htake] at h32
    exact absurd h32 (by norm_num))]
  simp only [anchor_merkle_root, if_true]
  rw [List.filter_append, List.filter_append]
  simp only [List.nil_append]
  have hfil1 : (List.take 32 q).filter
      (fun e => e.type = EntryType.MERKLE_ANCHOR) = [] := by
    rw [List.filter_eq_nil_iff]
    intro e he
    have he' : e ∈ q := List.mem_of_mem_take he
    rw [hq] at he'
    obtain ⟨t, htmem, rfl⟩ := List.mem_map.mp he'
    simpa [storedEntry] using hna t htmem
  have hfil2 : ([e33].filter
      (fun e => e.type = EntryType.MERKLE_ANCHOR)) = [] := by
    rw [List.filter_eq_nil_iff]
    intro e he
    simp only [List.mem_singleton] at he
    subst he
    rw [hq] at he33
    obtain ⟨t, htmem, heq⟩ := List.mem_map.mp he33
    subst heq
    simpa [storedEntry] using hna t htmem
  rw [hfil1, hfil2]
  have hanch : ([mkMerkleAnchorEntry h now (compute_merkle_root h
      ((q.take 32).map (fun e => e.entry_id)))].filter
      (fun e => e.type = EntryType.MERKLE_ANCHOR)) =
      [mkMerkleAnchorEntry h now (compute_merkle_root h
        ((q.take 32).map (fun e => e.entry_id)))] := by
    simp [mkMerkleAnchorEntry]
  rw [hanch]
  have hids : (q.take 32).map (fun e => e.entry_id) =
      (ts.take 32).map (fun t => (storedEntry h t).entry_id) := by
    rw [hq, ← List.map_take, List.map_map]
    rfl
  simp [hids]

/-- Witness for C3 (amended): 33 concrete trace entries. -/
theorem merkle_anchor_on_33rd_flush_witness :
    ((flush_pending hId (fun _ => true) 99
        (commitList hId itlInit trace33)).flash.filter
        (fun e => e.type = EntryType.MERKLE_ANCHOR)) =
      [mkMerkleAnchorEntry hId 99 (compute_merkle_root hId
        ((trace33.take 32).map (fun t => (storedEntry hId t).entry_id)))] :=
  merkle_anchor_on_33rd_flush hId 99 trace33 (by decide)
    (by decide)
